import Mathlib

/-!
Verification of the `rust_server_base` service against its specification.

The Rust source (`src/main.rs`, `src/routes/route.rs`) is shallowly embedded:
the in-memory numeric registry (`AppState2.numbers : Vec<i32>` behind a
`tokio::sync::RwLock`) becomes a `List Int` passed explicitly through each
handler; each handler returns its HTTP response together with the registry
state after the call.  Writers are serialized by the write lock, so a run of
concurrent `Append`s is modelled as a fold of the write-handler over some
serialization order of the appended values.
-/

namespace RustServerBase

/-- Embedding of `get_numbers` (src/main.rs lines 212-214): under the read
lock it returns `Json(state.read().await.numbers.clone())` and does not
touch the state.  Result: (response body, registry state afterwards). -/
def get_numbers (numbers : List Int) : List Int × List Int :=
  (numbers, numbers)

/-- Embedding of `add_number` (src/main.rs lines 216-223): under the write
lock it runs `writable_state.numbers.push(new_number)` and then returns
`Json(writable_state.numbers.clone())`.  Result: (response body, registry
state afterwards). -/
def add_number (numbers : List Int) (new_number : Int) : List Int × List Int :=
  let pushed := numbers ++ [new_number]
  (pushed, pushed)

/-- A run of `N` Append calls: the `RwLock` write lock totally orders the
mutations, so the whole run is the fold of `add_number` over the
serialization order `vs` of the appended values. -/
def runAppends (init : List Int) (vs : List Int) : List Int :=
  vs.foldl (fun s v => (add_number s v).2) init

/-- Embedding of `look_it_up` (src/main.rs lines 175-193): the handler
matches on Rust's `number % 2`, which is the truncated remainder `Int.tmod`;
the `1` arm answers 200 with `found = true`, every other remainder answers
404 with `found = false`.  Result: (status code, number echoed, found). -/
def look_it_up (number : Int) : Nat × Int × Bool :=
  if Int.tmod number 2 = 1 then (200, number, true)
  else (404, number, false)

/-- Rust's `%` on `i32` is the truncated remainder; on a negative-successor
dividend and divisor 2 it computes `-((m+1) % 2)`. -/
theorem tmod_negSucc_two (m : Nat) :
    Int.tmod (Int.negSucc m) 2 = -(((m + 1) % 2 : Nat) : Int) := rfl

/-- Outcome of process startup: either the server reaches `axum::serve`, or
the process exits first with an exit code and a diagnostic message. -/
inductive StartupOutcome where
  | serve
  | exit (code : Nat) (diagnostic : String)
  deriving DecidableEq, Repr

/-- A Rust process that panics terminates with exit code 101. -/
def rustPanicExitCode : Nat := 101

/-- Embedding of the startup sequence of `main` (src/main.rs lines 66-112):
`std::env::var("DATABASE_URL").expect("DATABASE_URL must set")` panics when
the variable is absent; a failed `MySqlPoolOptions::connect` prints a
diagnostic and calls `std::process::exit(1)`; then
`std::env::var("REDIS_URL").expect("DATABASE_URL must set")` panics when
`REDIS_URL` is absent (the expect message is copied from the earlier line);
`redis::Client::open(redis_url).unwrap()` panics when the URL is invalid;
only after all of that does the process bind and serve. -/
def main_startup (database_url : Option String) (db_connect_ok : String → Bool)
    (redis_url : Option String) (redis_open_ok : String → Bool) :
    StartupOutcome :=
  match database_url with
  | none => .exit rustPanicExitCode "DATABASE_URL must set"
  | some url =>
    if db_connect_ok url then
      match redis_url with
      | none => .exit rustPanicExitCode "DATABASE_URL must set"
      | some rurl =>
        if redis_open_ok rurl then .serve
        else .exit rustPanicExitCode "called Result::unwrap() on an Err value"
    else .exit 1 "❌ Failed to connect to the database"

/-- Response body of the healthcheck endpoint. -/
structure HealthBody where
  status : String
  message : String
  deriving DecidableEq, Repr

/-- Embedding of `health_check` (src/main.rs lines 296-306): the handler
calls `rdc.get_connection().expect(..)` and then issues a Redis `SET` via
`.query(..).expect(..)`; either `expect` panics on failure, so the request
gets no HTTP response at all (`none`).  On success it answers 200 with the
JSON body `{status: "ok2", message: "API Services"}`. -/
def health_check (get_connection_ok : Bool) (set_cmd_ok : Bool) :
    Option (Nat × HealthBody) :=
  if get_connection_ok then
    if set_cmd_ok then
      some (200, { status := "ok2", message := "API Services" })
    else none
  else none

/-- Modelled from the spec: the body extractor for POST /numbers is the
`Json<i32>` extractor of the axum framework, whose code is outside this
repository; the spec's interface table fixes its contract — a request body
that is not a well-formed JSON integer is rejected with 400 before the
handler body runs.  Parses an optional minus sign followed by decimal
digits and enforces the `i32` range. -/
def parseJsonInt (body : String) : Option Int :=
  let cs := body.toList
  let p : Bool × List Char :=
    match cs with
    | '-' :: rest => (true, rest)
    | _ => (false, cs)
  if p.2 = [] ∨ ¬ p.2.all Char.isDigit then none
  else
    let n : Nat := p.2.foldl (fun acc c => acc * 10 + (c.toNat - 48)) 0
    let v : Int := if p.1 then -(n : Int) else (n : Int)
    if -(2 ^ 31) ≤ v ∧ v ≤ 2 ^ 31 - 1 then some v else none

/-- The full POST /numbers request path: the extractor rejects a malformed
body with 400 and the handler never runs (registry untouched); on a
well-formed JSON integer the handler `add_number` runs and answers 200 with
the post-append sequence.  Result: ((status, response body), registry state
afterwards). -/
def post_numbers (numbers : List Int) (body : String) :
    (Nat × Option (List Int)) × List Int :=
  match parseJsonInt body with
  | none => ((400, none), numbers)
  | some v =>
    let r := add_number numbers v
    ((200, some r.1), r.2)

/-- A persisted note row, per the spec's data model (section 3). -/
structure Note where
  id : Nat
  title : String
  content : String
  created_at : Nat
  updated_at : Nat
  deriving DecidableEq, Repr

/-- A patch payload: a structure of optional fields, distinguishing
"field absent" from "field present" (spec, Design Notes). -/
structure UpdateNoteSchema where
  title : Option String
  content : Option String
  deriving DecidableEq, Repr

/-- Domain errors of the note store (spec, section 7). -/
inductive NoteError where
  | NotFound
  | StoreUnavailable
  deriving DecidableEq, Repr

/-- Patch application to a single row: only the fields present in the
payload change, `updated_at` becomes the current time. -/
def applyPatch (n : Note) (patch : UpdateNoteSchema) (now : Nat) : Note :=
  { n with
    title := patch.title.getD n.title
    content := patch.content.getD n.content
    updated_at := now }

/-- Modelled from the spec: `edit_note_handler` is routed from
PATCH /api/notes/:id (src/routes/route.rs line 24) but its body lives in
`handlers/handler.rs`, which is not among the available sources.  Per the
spec, Patch applies only the fields present in the payload, leaves
unspecified fields unchanged, sets `updated_at` to the current time, and
fails with `NotFound` when no note has the id.  The relational table is
modelled as a list of rows, the current time as `now`. -/
def edit_note_handler (db : List Note) (id : Nat) (patch : UpdateNoteSchema)
    (now : Nat) : Except NoteError (Note × List Note) :=
  match db.find? (fun m => m.id == id) with
  | none => .error .NotFound
  | some n =>
    let n2 : Note := applyPatch n patch now
    .ok (n2, db.map (fun m => if m.id = id then n2 else m))

/-- Modelled from the spec: `delete_note_handler` is routed from
DELETE /api/notes/:id (src/routes/route.rs line 25) but its body lives in
`handlers/handler.rs`, missing from the available sources.  Per the spec,
Delete removes the row and fails with `NotFound` when the id does not
exist; failure is idempotent, not a crash. -/
def delete_note_handler (db : List Note) (id : Nat) :
    Except NoteError (List Note) :=
  if db.any (fun n => n.id == id) then
    .ok (db.filter (fun n => !(n.id == id)))
  else .error .NotFound

/-- Modelled from the spec: `get_note_handler` is routed from
GET /api/notes/:id (src/routes/route.rs line 23) but its body lives in
`handlers/handler.rs`, missing from the available sources.  Per the spec,
GetByID fails with `NotFound` when no row with the id exists. -/
def get_note_handler (db : List Note) (id : Nat) : Except NoteError Note :=
  match db.find? (fun n => n.id == id) with
  | some n => .ok n
  | none => .error .NotFound

end RustServerBase

namespace RustServerBase

/-- C1: `Append(v)` (the POST /numbers handler `add_number`) leaves the
registry holding exactly `s ++ [v]` and returns `s ++ [v]`, the full
sequence as it stood immediately after the append; appending 5 to an empty
registry returns `[5]`. -/
theorem add_number_appends (s : List Int) (v : Int) :
    (add_number s v).2 = s ++ [v] ∧ (add_number s v).1 = s ++ [v] ∧
      (add_number [] 5).1 = [5] :=
  ⟨rfl, rfl, rfl⟩

/-- C2: for every initial registry sequence and every serialization `vs` of
`N` concurrent `Append` calls (the `RwLock` write lock gives the appends a
total order and excludes other readers and writers only for each mutation's
critical section), the final snapshot length is the initial length plus `N`,
and the final sequence extends the initial one by exactly that
serialization: no update is lost. -/
theorem concurrent_appends_no_lost_updates (init vs : List Int) :
    runAppends init vs = init ++ vs ∧
      (runAppends init vs).length = init.length + vs.length ∧
      init <+: runAppends init vs := by
  have h : runAppends init vs = init ++ vs := by
    induction vs generalizing init with
    | nil => simp [runAppends]
    | cons v t ih =>
      have h1 : runAppends init (v :: t) = runAppends (init ++ [v]) t := rfl
      rw [h1, ih (init ++ [v])]
      simp
  refine ⟨h, ?_, ?_⟩
  · rw [h]; simp
  · exact ⟨vs, h.symm⟩

/-- C3: both registry operations preserve the append-only invariant — the
sequence before the operation is a prefix of the sequence after it — and
`Snapshot` (`get_numbers`) returns a copy of the full current sequence
(empty when no `Append` has occurred), as a total function that cannot
fail. -/
theorem registry_append_only (s : List Int) (v : Int) :
    (get_numbers s).2 = s ∧ (get_numbers s).1 = s ∧
      s <+: (get_numbers s).2 ∧ s <+: (add_number s v).2 ∧
      (get_numbers []).1 = [] :=
  ⟨rfl, rfl, ⟨[], by simp [get_numbers]⟩, ⟨[v], rfl⟩, rfl⟩

/-- C10: for every negative odd integer `n`, GET /lookup/{n} answers 404
with `found = false`, because the handler tests `number % 2 == 1` and
Rust's truncated remainder of a negative odd number by 2 is `-1`; the
"odd numbers are found" rule holds only for non-negative inputs. -/
theorem look_it_up_negative_odd (n : Int) :
    (n < 0 → n % 2 = 1 → look_it_up n = (404, n, false)) ∧
      (0 ≤ n → n % 2 = 1 → look_it_up n = (200, n, true)) := by
  constructor
  · intro hneg hodd
    cases n with
    | ofNat k => exact absurd hneg (Int.not_lt.mpr (Int.ofNat_nonneg k))
    | negSucc m =>
      rw [Int.negSucc_eq] at hodd
      have hm : (m + 1) % 2 = 1 := by omega
      have ht : Int.tmod (Int.negSucc m) 2 = -1 := by
        rw [tmod_negSucc_two, hm]; rfl
      simp [look_it_up, ht]
  · intro hpos hodd
    have ht : Int.tmod n 2 = 1 := by
      rw [Int.tmod_eq_emod hpos (by decide)]; exact hodd
    simp [look_it_up, ht]

/-- Witness for C10 at the concrete inputs `-3` (negative odd, answered
404/not-found) and `3` (non-negative odd, answered 200/found). -/
theorem look_it_up_negative_odd_witness :
    look_it_up (-3) = (404, -3, false) ∧ look_it_up 3 = (200, 3, true) :=
  ⟨(look_it_up_negative_odd (-3)).1 (by decide) (by decide),
   (look_it_up_negative_odd 3).2 (by decide) (by decide)⟩

/-- C6: a POST /numbers request whose body is not a well-formed JSON
integer is answered 400 and leaves the registry unmodified; a well-formed
JSON integer body yields 200 with the post-append array, which is also the
new registry state. -/
theorem post_numbers_status (numbers : List Int) (body : String) :
    (parseJsonInt body = none →
      post_numbers numbers body = ((400, none), numbers)) ∧
    (∀ v, parseJsonInt body = some v →
      post_numbers numbers body = ((200, some (numbers ++ [v])), numbers ++ [v])) := by
  constructor
  · intro h
    simp [post_numbers, h]
  · intro v h
    simp [post_numbers, h, add_number]

/-- Witness for C6 at the malformed body `"[]"` (400, registry untouched)
and the well-formed body `"5"` (200, post-append array `[5]`). -/
theorem post_numbers_status_witness :
    post_numbers [] "[]" = ((400, none), []) ∧
      post_numbers [] "5" = ((200, some [5]), [5]) :=
  ⟨(post_numbers_status [] "[]").1 (by decide),
   (post_numbers_status [] "5").2 5 (by decide)⟩

/-- C7: with `DATABASE_URL` absent the process terminates before serving —
the `expect` panic exits with code 101 (non-zero) and the diagnostic
"DATABASE_URL must set" — and likewise a failed backend connection prints a
diagnostic and exits with code 1 (non-zero); neither path is retried. -/
theorem startup_missing_database_url_fatal
    (db_connect_ok : String → Bool) (redis_url : Option String)
    (redis_open_ok : String → Bool) (url : String) :
    (main_startup none db_connect_ok redis_url redis_open_ok
        = .exit rustPanicExitCode "DATABASE_URL must set" ∧
      rustPanicExitCode ≠ 0) ∧
    (db_connect_ok url = false →
      main_startup (some url) db_connect_ok redis_url redis_open_ok
          = .exit 1 "❌ Failed to connect to the database" ∧ (1 : Nat) ≠ 0) := by
  refine ⟨⟨rfl, by decide⟩, ?_⟩
  intro h
  exact ⟨by simp [main_startup, h], by decide⟩

/-- Witness for C7: concrete startups in which `DATABASE_URL` is absent,
respectively present but with a failing backend connection, both exit with
a non-zero code and a diagnostic. -/
theorem startup_missing_database_url_fatal_witness :
    main_startup none (fun _ => true) (some "redis://localhost") (fun _ => true)
        = .exit rustPanicExitCode "DATABASE_URL must set" ∧
      main_startup (some "mysql://db") (fun _ => false) (some "redis://localhost")
          (fun _ => true)
        = .exit 1 "❌ Failed to connect to the database" :=
  ⟨(startup_missing_database_url_fatal (fun _ => true) (some "redis://localhost")
      (fun _ => true) "mysql://db").1.1,
   ((startup_missing_database_url_fatal (fun _ => false) (some "redis://localhost")
      (fun _ => true) "mysql://db").2 rfl).1⟩

/-- Counterexample to C8: with the relational backend connection string
present and usable but `REDIS_URL` absent, startup does NOT reach the
serving stage — `std::env::var("REDIS_URL").expect(..)` (src/main.rs line
91) panics, so the claim that the process still starts and serves is false
at this concrete input. -/
theorem startup_redis_url_absent_counterexample :
    main_startup (some "mysql://db") (fun _ => true) none (fun _ => true)
      ≠ .serve := by decide

/-- C8 amended: the cache-store connection string is in fact mandatory —
when the relational connection string is present and usable but `REDIS_URL`
is absent, the process panics at startup (exit code 101, with a diagnostic
that mistakenly reads "DATABASE_URL must set") and never serves. -/
theorem startup_requires_redis_url (url : String)
    (db_connect_ok redis_open_ok : String → Bool)
    (h : db_connect_ok url = true) :
    main_startup (some url) db_connect_ok none redis_open_ok
        = .exit rustPanicExitCode "DATABASE_URL must set" ∧
      rustPanicExitCode ≠ 0 :=
  ⟨by simp [main_startup, h], by decide⟩

/-- Witness for the amended C8 at a concrete startup: relational URL
present and usable, `REDIS_URL` absent, outcome is the fatal exit. -/
theorem startup_requires_redis_url_witness :
    main_startup (some "mysql://db") (fun _ => true) none (fun _ => true)
      = .exit rustPanicExitCode "DATABASE_URL must set" :=
  (startup_requires_redis_url "mysql://db" (fun _ => true) (fun _ => true) rfl).1

/-- Counterexample to C9: when the liveness probe fails — the Redis
connection cannot be obtained (`health_check false true`) or the SET probe
fails (`health_check true false`) — the handler panics in `expect` and
produces no HTTP response at all (`none`), rather than the claimed 5xx
response. -/
theorem health_check_failure_counterexample :
    health_check false true = none ∧ health_check true false = none :=
  ⟨rfl, rfl⟩

/-- C9 amended: when the probe succeeds the handler answers 200 with a JSON
body carrying a status field ("ok2") and a message field ("API Services");
when the Redis connection or the SET probe fails, the handler panics and
the request receives no HTTP response (connection aborted), not a 5xx. -/
theorem health_check_semantics (conn set_ok : Bool) :
    health_check true true
        = some (200, { status := "ok2", message := "API Services" }) ∧
      (conn = false ∨ set_ok = false → health_check conn set_ok = none) := by
  refine ⟨rfl, ?_⟩
  intro h
  rcases h with h | h
  · subst h; cases set_ok <;> rfl
  · subst h; cases conn <;> rfl

/-- Witness for the amended C9 at the concrete failing probe. -/
theorem health_check_semantics_witness :
    health_check false true = none :=
  (health_check_semantics false true).2 (Or.inl rfl)

/-- C4: Patch on an existing id changes only the fields present in the
payload (an absent `title`/`content` keeps its prior value, a present one
takes the supplied value), keeps `id` and `created_at`, sets `updated_at`
to the current time (hence ≥ the original when time does not run
backwards), rewrites only the row with that id, and fails with `NotFound`
when the id does not exist. -/
theorem edit_note_patch_semantics (db : List Note) (id : Nat)
    (patch : UpdateNoteSchema) (now : Nat) :
    (db.find? (fun m => m.id == id) = none →
      edit_note_handler db id patch now = .error .NotFound) ∧
    (∀ n, db.find? (fun m => m.id == id) = some n →
      edit_note_handler db id patch now
          = .ok (applyPatch n patch now,
              db.map (fun m => if m.id = id then applyPatch n patch now else m)) ∧
        (applyPatch n patch now).id = n.id ∧
        (applyPatch n patch now).created_at = n.created_at ∧
        (patch.title = none → (applyPatch n patch now).title = n.title) ∧
        (∀ t, patch.title = some t → (applyPatch n patch now).title = t) ∧
        (patch.content = none → (applyPatch n patch now).content = n.content) ∧
        (∀ c, patch.content = some c → (applyPatch n patch now).content = c) ∧
        (applyPatch n patch now).updated_at = now ∧
        (n.updated_at ≤ now → n.updated_at ≤ (applyPatch n patch now).updated_at)) := by
  constructor
  · intro h
    simp [edit_note_handler, h]
  · intro n h
    refine ⟨by simp [edit_note_handler, h], rfl, rfl, ?_, ?_, ?_, ?_, rfl, ?_⟩
    · intro ht; simp [applyPatch, ht]
    · intro t ht; simp [applyPatch, ht]
    · intro hc; simp [applyPatch, hc]
    · intro c hc; simp [applyPatch, hc]
    · intro hle; exact hle

/-- Witness for C4: patching note 1 of a one-row store with only a new
title changes the title, keeps the content and `created_at`, and refreshes
`updated_at` to the (later) current time 5. -/
theorem edit_note_patch_semantics_witness :
    edit_note_handler [⟨1, "T", "C", 0, 0⟩] 1 ⟨some "T2", none⟩ 5
        = .ok (⟨1, "T2", "C", 0, 5⟩, [⟨1, "T2", "C", 0, 5⟩]) ∧
      edit_note_handler [] 1 ⟨some "T2", none⟩ 5 = .error .NotFound := by
  have h := (edit_note_patch_semantics [⟨1, "T", "C", 0, 0⟩] 1
    ⟨some "T2", none⟩ 5).2 ⟨1, "T", "C", 0, 0⟩ (by decide)
  have h0 := (edit_note_patch_semantics [] 1 ⟨some "T2", none⟩ 5).1 rfl
  exact ⟨by simpa [applyPatch] using h.1, h0⟩

/-- C5: Delete succeeds exactly when the id exists (removing the row) and
fails with `NotFound` otherwise; after a successful Delete, a second Delete
and a GetByID of the same id both fail with `NotFound` — a returned error
value, not a crash. -/
theorem delete_note_semantics (db : List Note) (id : Nat) :
    (db.any (fun n => n.id == id) = true →
      delete_note_handler db id = .ok (db.filter (fun n => !(n.id == id)))) ∧
    (db.any (fun n => n.id == id) = false →
      delete_note_handler db id = .error .NotFound) ∧
    (∀ db2, delete_note_handler db id = .ok db2 →
      delete_note_handler db2 id = .error .NotFound ∧
        get_note_handler db2 id = .error .NotFound ∧
        ∀ n ∈ db2, ¬ n.id = id) := by
  refine ⟨?_, ?_, ?_⟩
  · intro h
    simp [delete_note_handler, h]
  · intro h
    simp [delete_note_handler, h]
  · intro db2 hok
    by_cases hc : db.any (fun n => n.id == id) = true
    · rw [delete_note_handler, if_pos hc] at hok
      have hdb2 : db2 = db.filter (fun n => !(n.id == id)) := by
        cases hok; rfl
      subst hdb2
      have hmem : ∀ n ∈ db.filter (fun n => !(n.id == id)), ¬ n.id = id := by
        intro n hn
        have hf := List.of_mem_filter hn
        simpa using hf
      have hany2 : (db.filter (fun n => !(n.id == id))).any
          (fun n => n.id == id) = false := by
        rw [List.any_eq_false]
        intro n hn
        simpa using hmem n hn
      have hfind : (db.filter (fun n => !(n.id == id))).find?
          (fun n => n.id == id) = none := by
        rw [List.find?_eq_none]
        intro n hn
        simpa using hmem n hn
      exact ⟨by simp [delete_note_handler, hany2], by simp [get_note_handler, hfind], hmem⟩
    · rw [delete_note_handler, if_neg hc] at hok
      exact absurd hok (by simp)

/-- Witness for C5: deleting note 1 from a one-row store succeeds and
empties it; deleting again and fetching by id both answer `NotFound`. -/
theorem delete_note_semantics_witness :
    delete_note_handler [⟨1, "T", "C", 0, 0⟩] 1 = .ok [] ∧
      delete_note_handler [] 1 = .error .NotFound ∧
      get_note_handler [] 1 = .error .NotFound := by
  have h1 : delete_note_handler [⟨1, "T", "C", 0, 0⟩] 1 = .ok [] := by
    have := (delete_note_semantics [⟨1, "T", "C", 0, 0⟩] 1).1 (by decide)
    simpa using this
  have h2 := (delete_note_semantics [⟨1, "T", "C", 0, 0⟩] 1).2.2 [] h1
  exact ⟨h1, h2.1, h2.2.1⟩

end RustServerBase
